import Mathlib

/-
Verification of the Sekure password-manager key-lifecycle core
(src/backend/crypto.py and src/backend/main.py) against its
natural-language specification.

Modelling conventions (shallow embedding):
  * Byte strings are symbolic: a byte is either a literal value or byte
    number idx of random draw number draw.  Each call to os.urandom is one
    draw of an entropy counter threaded explicitly through the state, so
    distinct calls yield distinct byte strings, which is the standard
    idealisation of a CSPRNG.
  * PBKDF2-HMAC-SHA256 output is represented symbolically by its inputs
    (iteration count, password, salt, output length); two outputs are equal
    exactly when their inputs are equal, the standard idealisation of a
    collision-free KDF that the spec itself assumes.
  * AES-256-GCM is modelled as ideal authenticated encryption: a ciphertext
    remembers the plaintext, key and nonce that produced it; decryption
    succeeds exactly when key and nonce match, and a corrupted (bit-flipped)
    blob never decrypts.  base64 is modelled as an injective wrapper with
    exact inverse decoding, which is its behaviour on valid data.
  * SQLAlchemy tables become lists of records; first() becomes List.find?,
    delete() becomes List.filter, update() becomes List.map.  Session
    tokens from secrets.token_urlsafe are modelled by the entropy counter
    value at the draw (opaque, fresh, compared only for equality).
  * HTTP response assembly is out of scope (per the spec); endpoints return
    the security-relevant payload in an Except over the error taxonomy, and
    an uncaught cryptography.InvalidTag is the authenticationFailure error.
-/

namespace Sekure

/-- A symbolic byte: a literal value, or byte number idx of urandom draw
number draw. -/
inductive Byte where
  | lit (n : Nat)
  | rand (draw idx : Nat)
  deriving DecidableEq, Repr

/-- Symbolic byte strings. -/
abbrev Bytes := List Byte

/-- The len bytes produced by urandom draw number draw. -/
def randBytes (len draw : Nat) : Bytes :=
  (List.range len).map (Byte.rand draw)

/-- os.urandom(len): returns fresh random bytes and advances the entropy
counter. -/
def urandom (len e : Nat) : Bytes × Nat :=
  (randBytes len e, e + 1)

/-- base64 wrapper: encoding is injective and decoding is its exact
inverse, as in Python for valid data. -/
structure B64 (α : Type) where
  data : α
  deriving DecidableEq, Repr

def b64encode {α : Type} (x : α) : B64 α := ⟨x⟩

def b64decode {α : Type} (x : B64 α) : α := x.data

@[simp] theorem b64decode_encode {α : Type} (x : α) : b64decode (b64encode x) = x := rfl

/-- Symbolic 32-byte key material: either a PBKDF2-HMAC-SHA256 output,
identified by its inputs, or raw random bytes (group keys). -/
inductive KeyMaterial where
  | pbkdf2 (iterations : Nat) (password : String) (salt : Bytes) (dklen : Nat)
  | raw (bytes : Bytes)
  deriving DecidableEq, Repr

/-- Output length of the key material in bits. -/
def KeyMaterial.dkLenBits : KeyMaterial → Nat
  | .pbkdf2 _ _ _ dklen => 8 * dklen
  | .raw bs => 8 * bs.length

/-- crypto.py: ITERATIONS = 600_000, the OWASP recommended minimum for
PBKDF2-SHA256. -/
def ITERATIONS : Nat := 600000

/-- crypto.py derive_key: PBKDF2-HMAC-SHA256 over the master password and
salt, 32-byte output. -/
def derive_key (master_password : String) (salt : Bytes) : KeyMaterial :=
  .pbkdf2 ITERATIONS master_password salt 32

/-- The UTF-8 bytes of the literal "_verify" appended to the salt in
hash_master_password. -/
def verifyTag : Bytes :=
  [.lit 95, .lit 118, .lit 101, .lit 114, .lit 105, .lit 102, .lit 121]

/-- crypto.py hash_master_password: PBKDF2 over the password and the salt
with the "_verify" suffix, base64-encoded for storage. -/
def hash_master_password (master_password : String) (salt : Bytes) : B64 KeyMaterial :=
  b64encode (.pbkdf2 ITERATIONS master_password (salt ++ verifyTag) 32)

/-- crypto.py verify_master_password: recompute and compare. -/
def verify_master_password (master_password : String) (salt : Bytes)
    (stored_hash : B64 KeyMaterial) : Bool :=
  hash_master_password master_password salt == stored_hash

/-- crypto.py generate_salt: os.urandom(32). -/
def generate_salt (e : Nat) : Bytes × Nat := urandom 32 e

/-- A symbolic AES-256-GCM blob: either the encryption of a plaintext
under a key and nonce, or a corrupted blob (some bit flipped in a
previous blob). -/
inductive Ct where
  | enc (plaintext : String) (key : KeyMaterial) (nonce : Bytes)
  | bitFlipped (orig : Ct) (bit : Nat)
  deriving DecidableEq, Repr

inductive DecryptError where
  | authenticationFailure
  deriving DecidableEq, Repr

/-- Ideal AES-GCM encryption: AESGCM(key).encrypt(nonce, plaintext, None). -/
def aesgcm_encrypt (nonce : Bytes) (plaintext : String) (key : KeyMaterial) : Ct :=
  .enc plaintext key nonce

/-- Ideal AES-GCM decryption: succeeds exactly when the blob is a genuine
encryption under the same key and nonce; corrupted blobs always fail the
integrity check. -/
def aesgcm_decrypt (nonce : Bytes) (ct : Ct) (key : KeyMaterial) :
    Except DecryptError String :=
  match ct with
  | .enc pt k n => if k = key ∧ n = nonce then .ok pt else .error .authenticationFailure
  | .bitFlipped _ _ => .error .authenticationFailure

/-- crypto.py encrypt_password: fresh 96-bit nonce from os.urandom(12),
AES-GCM encryption, both parts base64-encoded.  The entropy counter is
threaded explicitly. -/
def encrypt_password (plaintext : String) (key : KeyMaterial) (e : Nat) :
    (B64 Ct × B64 Bytes) × Nat :=
  let iv := (urandom 12 e).1
  ((b64encode (aesgcm_encrypt iv plaintext key), b64encode iv), (urandom 12 e).2)

/-- crypto.py decrypt_password: base64-decode both parts and run AES-GCM
decryption. -/
def decrypt_password (ciphertext_b64 : B64 Ct) (iv_b64 : B64 Bytes)
    (key : KeyMaterial) : Except DecryptError String :=
  aesgcm_decrypt (b64decode iv_b64) (b64decode ciphertext_b64) key

-- ### Entropy-freshness helpers

/-- True when the byte does not come from urandom draw e or later. -/
def Byte.drawLt (e : Nat) : Byte → Bool
  | .lit _ => true
  | .rand d _ => d < e

/-- True when every byte of the string predates entropy counter e.  This
holds of every byte string stored in a reachable database state whose
counter is e, since stored material only ever comes from past draws. -/
def bytesFresh (bs : Bytes) (e : Nat) : Bool := bs.all (Byte.drawLt e)

theorem rand_head_mem (len d : Nat) (h : 0 < len) : Byte.rand d 0 ∈ randBytes len d := by
  simp only [randBytes, List.mem_map]
  exact ⟨0, List.mem_range.mpr h, rfl⟩

theorem bytesFresh_ne_randBytes (bs : Bytes) (e len : Nat)
    (hf : bytesFresh bs e = true) (hlen : 0 < len) : bs ≠ randBytes len e := by
  intro he
  have hm : Byte.rand e 0 ∈ bs := he ▸ rand_head_mem len e hlen
  have hb := List.all_eq_true.mp hf _ hm
  simp only [Byte.drawLt, decide_eq_true_eq] at hb
  omega

theorem randBytes_injective_draw (len d1 d2 : Nat) (hlen : 0 < len)
    (hne : d1 ≠ d2) : randBytes len d1 ≠ randBytes len d2 := by
  intro he
  have hm : Byte.rand d1 0 ∈ randBytes len d2 := he ▸ rand_head_mem len d1 hlen
  simp only [randBytes, List.mem_map] at hm
  obtain ⟨i, _, hi⟩ := hm
  exact hne (by injection hi with h1 _; omega)

-- ### Data model (models.py tables, claim-relevant columns)

/-- SHA-256 hex digest, symbolic: identified by its input string
(hashlib.sha256(s.encode()).hexdigest()). -/
inductive Sha256Hex where
  | sha256 (input : String)
  deriving DecidableEq, Repr

/-- An opaque session token from secrets.token_urlsafe(32): modelled by the
entropy-draw number that produced it (fresh and compared only for
equality). -/
abbrev Token := Nat

/-- models.py User row. -/
structure UserRec where
  id : Nat
  username : String
  password_hash : B64 KeyMaterial
  salt : B64 Bytes
  recovery_code_hash : Option Sha256Hex
  is_kids_account : Bool
  parent_id : Option Nat
  deriving DecidableEq, Repr

/-- models.py Password row (a personal or kids vault EncryptedField with
its metadata). -/
structure PasswordRec where
  id : Nat
  user_id : Nat
  title : String
  username : String
  url : String
  encrypted_password : B64 Ct
  iv : B64 Bytes
  notes : String
  is_favorite : Bool
  deriving DecidableEq, Repr

/-- models.py UserSession row. -/
structure SessionRec where
  token : Token
  user_id : Nat
  username : String
  encryption_key : B64 KeyMaterial
  deriving DecidableEq, Repr

/-- models.py Group row. -/
structure GroupRec where
  id : Nat
  name : String
  owner_id : Nat
  encryption_key : B64 KeyMaterial
  deriving DecidableEq, Repr

/-- models.py GroupMember row. -/
structure GroupMemberRec where
  group_id : Nat
  user_id : Nat
  deriving DecidableEq, Repr

/-- models.py GroupPassword row. -/
structure GroupPasswordRec where
  id : Nat
  group_id : Nat
  added_by : Nat
  title : String
  username : String
  url : String
  encrypted_password : B64 Ct
  iv : B64 Bytes
  notes : String
  deriving DecidableEq, Repr

/-- The persistent state: the relational tables plus the explicit entropy
counter (urandom / token draws) and the autoincrement id counter. -/
structure DB where
  users : List UserRec
  passwords : List PasswordRec
  sessions : List SessionRec
  groups : List GroupRec
  group_members : List GroupMemberRec
  group_passwords : List GroupPasswordRec
  entropy : Nat
  next_id : Nat
  deriving DecidableEq, Repr

/-- The dict returned by main.py _load_session. -/
structure SessionData where
  token : Token
  user_id : Nat
  username : String
  key : KeyMaterial
  is_kids_account : Bool
  deriving DecidableEq, Repr

/-- Error taxonomy: an HTTPException with status and detail, or an uncaught
cryptography InvalidTag propagating out of an endpoint. -/
inductive ApiError where
  | http (status : Nat) (detail : String)
  | authenticationFailure
  deriving DecidableEq, Repr

-- ### main.py endpoints (claim-relevant ones), translated 1:1

/-- Python str.strip(): drop whitespace from both ends.  (String.trim of
the Lean core is extensionally the same but does not evaluate inside the
kernel, so the embedding uses this list-based equivalent.) -/
def pyStrip (s : String) : String :=
  ⟨((s.data.dropWhile Char.isWhitespace).reverse.dropWhile Char.isWhitespace).reverse⟩

/-- Python str.upper(). -/
def pyUpper (s : String) : String := ⟨s.data.map Char.toUpper⟩

/-- main.py _load_session: look the token up, base64-decode the cached key,
fetch the user for the kids flag. -/
def load_session (token : Token) (db : DB) : Option SessionData :=
  match db.sessions.find? (fun s => s.token == token) with
  | none => none
  | some sess =>
    let key := b64decode sess.encryption_key
    let user := db.users.find? (fun u => u.id == sess.user_id)
    some { token := token, user_id := sess.user_id, username := sess.username,
           key := key,
           is_kids_account := match user with
                              | some u => u.is_kids_account
                              | none => false }

/-- main.py get_current_session (the Bearer-token parsing itself is wire
format and out of scope; the argument is the parsed token). -/
def get_current_session (token : Token) (db : DB) : Except ApiError SessionData :=
  match load_session token db with
  | none => .error (.http 401 "Sesión inválida o expirada.")
  | some s => .ok s

/-- main.py login_user: find the user, verify the passphrase, derive the
key, create a session caching it.  Returns the fresh token. -/
def login_user (username master_password : String) (db : DB) :
    Except ApiError (Token × DB) :=
  match db.users.find? (fun u => u.username == pyStrip username) with
  | none => .error (.http 401 "Usuario o contraseña incorrectos.")
  | some user =>
    if verify_master_password master_password (b64decode user.salt) user.password_hash then
      let key := derive_key master_password (b64decode user.salt)
      let token := db.entropy
      let sess : SessionRec :=
        { token := token, user_id := user.id, username := user.username,
          encryption_key := b64encode key }
      .ok (token, { db with sessions := db.sessions ++ [sess], entropy := db.entropy + 1 })
    else .error (.http 401 "Usuario o contraseña incorrectos.")

/-- Normalisation applied to a submitted recovery code:
data.recovery_code.strip().upper(). -/
def normalize_recovery_code (s : String) : String := pyUpper (pyStrip s)

/-- A fresh recovery code: secrets.token_hex(10).upper() with dashes,
modelled as a fresh opaque uppercase string drawn from the entropy
counter. -/
def fresh_recovery_code (e : Nat) : String × Nat := ("RC" ++ toString e, e + 1)

/-- The response body of recover_account (claim-relevant fields). -/
structure RecoverOut where
  token : Token
  recovery_code : String
  deriving DecidableEq, Repr

/-- main.py recover_account: verify the recovery code, reset salt/hash/key,
generate and hash a new recovery code, delete the whole old vault, delete
all sessions, then create one fresh session under the new key. -/
def recover_account (username recovery_code new_master_password : String)
    (db : DB) : Except ApiError (RecoverOut × DB) :=
  if new_master_password.length < 8 then
    .error (.http 400 "La nueva contraseña debe tener al menos 8 caracteres.")
  else
    match db.users.find? (fun u => u.username == pyStrip username) with
    | none => .error (.http 400 "Código de recuperación inválido.")
    | some user =>
      match user.recovery_code_hash with
      | none => .error (.http 400 "Código de recuperación inválido.")
      | some stored =>
        if Sha256Hex.sha256 (normalize_recovery_code recovery_code) = stored then
          let new_salt := (urandom 32 db.entropy).1
          let e1 := (urandom 32 db.entropy).2
          let new_hash := hash_master_password new_master_password new_salt
          let new_key := derive_key new_master_password new_salt
          let new_code := (fresh_recovery_code e1).1
          let e2 := (fresh_recovery_code e1).2
          let user2 := { user with
                         password_hash := new_hash,
                         salt := b64encode new_salt,
                         recovery_code_hash := some (Sha256Hex.sha256 new_code) }
          let token := e2
          let sess : SessionRec :=
            { token := token, user_id := user.id, username := user.username,
              encryption_key := b64encode new_key }
          .ok ({ token := token, recovery_code := new_code },
               { db with
                 users := db.users.map (fun u => if u.id == user.id then user2 else u),
                 passwords := db.passwords.filter (fun p => p.user_id != user.id),
                 sessions := (db.sessions.filter (fun s => s.user_id != user.id)) ++ [sess],
                 entropy := e2 + 1 })
        else .error (.http 400 "Código de recuperación inválido.")

/-- main.py get_vault_entry: look the entry up scoped to the session owner
and decrypt it under the session-cached key; the decrypted password is the
claim-relevant payload of the response. -/
def get_vault_entry (entry_id : Nat) (token : Token) (db : DB) :
    Except ApiError String :=
  match get_current_session token db with
  | .error err => .error err
  | .ok session =>
    match db.passwords.find? (fun p => p.id == entry_id && p.user_id == session.user_id) with
    | none => .error (.http 404 "Entrada no encontrada.")
    | some entry =>
      match decrypt_password entry.encrypted_password entry.iv session.key with
      | .ok pt => .ok pt
      | .error _ => .error .authenticationFailure

/-- main.py change_password re-encryption loop: for each entry of the user,
try to decrypt under the old key and re-encrypt under the new key with a
fresh nonce; on any failure the entry is silently skipped
(except Exception: pass). -/
def reencrypt_entries (ps : List PasswordRec) (uid : Nat)
    (old_key new_key : KeyMaterial) (e : Nat) : List PasswordRec × Nat :=
  match ps with
  | [] => ([], e)
  | p :: rest =>
    if p.user_id == uid then
      match decrypt_password p.encrypted_password p.iv old_key with
      | .ok pt =>
        let enc := encrypt_password pt new_key e
        let rec2 := reencrypt_entries rest uid old_key new_key enc.2
        ({ p with encrypted_password := enc.1.1, iv := enc.1.2 } :: rec2.1, rec2.2)
      | .error _ =>
        let rec2 := reencrypt_entries rest uid old_key new_key e
        (p :: rec2.1, rec2.2)
    else
      let rec2 := reencrypt_entries rest uid old_key new_key e
      (p :: rec2.1, rec2.2)

/-- main.py change_password: verify the old passphrase, derive old and new
keys, re-encrypt the vault (skipping failures), swap salt and hash, and
update every session of the user in place with the new key. -/
def change_password (token : Token) (current_password new_password : String)
    (db : DB) : Except ApiError DB :=
  match get_current_session token db with
  | .error err => .error err
  | .ok session =>
    match db.users.find? (fun u => u.id == session.user_id) with
    | none => .error (.http 404 "Usuario no encontrado.")
    | some user =>
      if verify_master_password current_password (b64decode user.salt) user.password_hash then
        if new_password.length < 8 then
          .error (.http 400 "La nueva contraseña debe tener al menos 8 caracteres.")
        else
          let old_key := derive_key current_password (b64decode user.salt)
          let new_salt := (urandom 32 db.entropy).1
          let e1 := (urandom 32 db.entropy).2
          let new_password_hash := hash_master_password new_password new_salt
          let new_key := derive_key new_password new_salt
          let rec2 := reencrypt_entries db.passwords user.id old_key new_key e1
          let user2 := { user with
                         password_hash := new_password_hash,
                         salt := b64encode new_salt }
          .ok { db with
                users := db.users.map (fun u => if u.id == user.id then user2 else u),
                passwords := rec2.1,
                sessions := db.sessions.map (fun s =>
                  if s.user_id == user.id then
                    { s with encryption_key := b64encode new_key }
                  else s),
                entropy := rec2.2 }
      else .error (.http 403 "Contraseña actual incorrecta.")

-- ### Kids endpoints

/-- main.py _get_kid_for_parent: fetch the account; allowed when the caller
is its parent or the kid itself. -/
def get_kid_for_parent (kid_id user_id : Nat) (db : DB) : Except ApiError UserRec :=
  match db.users.find? (fun u => u.id == kid_id) with
  | none => .error (.http 404 "Cuenta no encontrada.")
  | some kid =>
    if kid.parent_id == some user_id || kid.id == user_id then .ok kid
    else .error (.http 403 "No tienes acceso a esta cuenta.")

/-- The fixed derivation input of the kids key: the Python f-string
sekure_kids_{kid.id}_{kid.parent_id} (None prints as the word None). -/
def kids_key_input (kid : UserRec) : String :=
  "sekure_kids_" ++ toString kid.id ++ "_" ++
    (match kid.parent_id with
     | some p => toString p
     | none => "None")

/-- main.py _get_kid_encryption_key: deterministic key from the fixed
string and the kids own salt, so parent and kid always obtain the same
key. -/
def get_kid_encryption_key (kid : UserRec) : KeyMaterial :=
  derive_key (kids_key_input kid) (b64decode kid.salt)

/-- main.py get_kids_vault_entry: authorize, recompute the kids key, look
the entry up in the kids vault and decrypt it. -/
def get_kids_vault_entry (kid_id entry_id : Nat) (token : Token) (db : DB) :
    Except ApiError String :=
  match get_current_session token db with
  | .error err => .error err
  | .ok session =>
    match get_kid_for_parent kid_id session.user_id db with
    | .error err => .error err
    | .ok kid =>
      let key := get_kid_encryption_key kid
      match db.passwords.find? (fun p => p.id == entry_id && p.user_id == kid.id) with
      | none => .error (.http 404 "Entrada no encontrada.")
      | some entry =>
        match decrypt_password entry.encrypted_password entry.iv key with
        | .ok pt => .ok pt
        | .error _ => .error .authenticationFailure

-- ### Group endpoints

/-- main.py create_group: a fresh random 32-byte key from os.urandom,
stored base64 in the group row; the creator becomes owner and first
member.  Returns the new group id. -/
def create_group (name : String) (token : Token) (db : DB) :
    Except ApiError (Nat × DB) :=
  match get_current_session token db with
  | .error err => .error err
  | .ok session =>
    if pyStrip name = "" then .error (.http 400 "El nombre del grupo no puede estar vacío.")
    else
      let group_key := (urandom 32 db.entropy).1
      let e1 := (urandom 32 db.entropy).2
      let gid := db.next_id
      let group : GroupRec :=
        { id := gid, name := pyStrip name, owner_id := session.user_id,
          encryption_key := b64encode (KeyMaterial.raw group_key) }
      let member : GroupMemberRec := { group_id := gid, user_id := session.user_id }
      .ok (gid, { db with groups := db.groups ++ [group],
                          group_members := db.group_members ++ [member],
                          entropy := e1, next_id := db.next_id + 1 })

/-- The body of GroupPasswordCreate (schemas.py). -/
structure GroupPasswordCreateData where
  title : String
  username : String
  url : String
  notes : String
  password : String
  deriving DecidableEq, Repr

/-- main.py create_group_vault_entry: membership check first, then encrypt
the password under the stored group key and insert the row. -/
def create_group_vault_entry (group_id : Nat) (data : GroupPasswordCreateData)
    (token : Token) (db : DB) : Except ApiError (Nat × DB) :=
  match get_current_session token db with
  | .error err => .error err
  | .ok session =>
    match db.group_members.find? (fun m => m.group_id == group_id && m.user_id == session.user_id) with
    | none => .error (.http 403 "No eres miembro de este grupo.")
    | some _ =>
      match db.groups.find? (fun g => g.id == group_id) with
      | none => .error (.http 500 "internal")
      | some group =>
        let group_key := b64decode group.encryption_key
        let enc := encrypt_password data.password group_key db.entropy
        let eid := db.next_id
        let entry : GroupPasswordRec :=
          { id := eid, group_id := group_id, added_by := session.user_id,
            title := data.title, username := data.username, url := data.url,
            encrypted_password := enc.1.1, iv := enc.1.2, notes := data.notes }
        .ok (eid, { db with group_passwords := db.group_passwords ++ [entry],
                            entropy := enc.2, next_id := db.next_id + 1 })

/-- main.py get_group_vault_entry: membership check first, then look the
entry up and decrypt it under the stored group key. -/
def get_group_vault_entry (group_id entry_id : Nat) (token : Token) (db : DB) :
    Except ApiError String :=
  match get_current_session token db with
  | .error err => .error err
  | .ok session =>
    match db.group_members.find? (fun m => m.group_id == group_id && m.user_id == session.user_id) with
    | none => .error (.http 403 "No eres miembro de este grupo.")
    | some _ =>
      match db.group_passwords.find? (fun p => p.id == entry_id && p.group_id == group_id) with
      | none => .error (.http 404 "Entrada no encontrada.")
      | some entry =>
        match db.groups.find? (fun g => g.id == group_id) with
        | none => .error (.http 500 "internal")
        | some group =>
          match decrypt_password entry.encrypted_password entry.iv (b64decode group.encryption_key) with
          | .ok pt => .ok pt
          | .error _ => .error .authenticationFailure

/-- Session-table sanity of a reachable state: every stored token came from
a past entropy draw, and tokens are pairwise distinct (primary key). -/
def DB.sessionsWF (db : DB) : Prop :=
  (∀ s ∈ db.sessions, s.token < db.entropy) ∧
  (db.sessions.map (fun s => s.token)).Nodup

instance (db : DB) : Decidable db.sessionsWF := by
  unfold DB.sessionsWF
  infer_instance

-- ### Claim C5: AEAD round trip and integrity

/-- C5: for every plaintext and key, decrypt(encrypt(plaintext, key))
returns the original plaintext; decrypting with a different key, with the
ciphertext corrupted (a bit flipped), or with a different nonce fails with
an AuthenticationFailure and never returns plaintext. -/
theorem aead_roundtrip_and_integrity :
    (∀ (pt : String) (key : KeyMaterial) (e : Nat),
      decrypt_password ((encrypt_password pt key e).1.1)
        ((encrypt_password pt key e).1.2) key = .ok pt) ∧
    (∀ (pt : String) (key key2 : KeyMaterial) (iv : Bytes), key2 ≠ key →
      decrypt_password (b64encode (Ct.enc pt key iv)) (b64encode iv) key2 =
        .error .authenticationFailure) ∧
    (∀ (ct : Ct) (bit : Nat) (iv : Bytes) (key : KeyMaterial),
      decrypt_password (b64encode (Ct.bitFlipped ct bit)) (b64encode iv) key =
        .error .authenticationFailure) ∧
    (∀ (pt : String) (key : KeyMaterial) (iv iv2 : Bytes), iv2 ≠ iv →
      decrypt_password (b64encode (Ct.enc pt key iv)) (b64encode iv2) key =
        .error .authenticationFailure) := by
  refine ⟨?_, ?_, ?_, ?_⟩
  · intro pt key e
    simp [decrypt_password, encrypt_password, aesgcm_encrypt, aesgcm_decrypt,
      urandom, b64encode, b64decode]
  · intro pt key key2 iv h
    simp only [decrypt_password, aesgcm_decrypt, b64encode, b64decode]
    rw [if_neg]
    rintro ⟨hk, -⟩
    exact h hk.symm
  · intro ct bit iv key
    rfl
  · intro pt key iv iv2 h
    simp only [decrypt_password, aesgcm_decrypt, b64encode, b64decode]
    rw [if_neg]
    rintro ⟨-, hn⟩
    exact h hn.symm

/-- Concrete instance of C5 with the wrong-key and wrong-nonce hypotheses
discharged. -/
theorem aead_roundtrip_and_integrity_witness :
    decrypt_password ((encrypt_password "hunter2" (KeyMaterial.raw (randBytes 32 0)) 1).1.1)
      ((encrypt_password "hunter2" (KeyMaterial.raw (randBytes 32 0)) 1).1.2)
      (KeyMaterial.raw (randBytes 32 0)) = .ok "hunter2" ∧
    decrypt_password (b64encode (Ct.enc "hunter2" (KeyMaterial.raw (randBytes 32 0)) (randBytes 12 1)))
      (b64encode (randBytes 12 1)) (KeyMaterial.raw (randBytes 32 2)) =
      .error .authenticationFailure ∧
    decrypt_password (b64encode (Ct.bitFlipped
        (Ct.enc "hunter2" (KeyMaterial.raw (randBytes 32 0)) (randBytes 12 1)) 3))
      (b64encode (randBytes 12 1)) (KeyMaterial.raw (randBytes 32 0)) =
      .error .authenticationFailure ∧
    decrypt_password (b64encode (Ct.enc "hunter2" (KeyMaterial.raw (randBytes 32 0)) (randBytes 12 1)))
      (b64encode (randBytes 12 3)) (KeyMaterial.raw (randBytes 32 0)) =
      .error .authenticationFailure :=
  ⟨aead_roundtrip_and_integrity.1 "hunter2" (KeyMaterial.raw (randBytes 32 0)) 1,
   aead_roundtrip_and_integrity.2.1 "hunter2" _ _ _ (by decide),
   aead_roundtrip_and_integrity.2.2.1 _ 3 _ _,
   aead_roundtrip_and_integrity.2.2.2 "hunter2" _ _ _ (by decide)⟩

-- ### Claim C6: determinism and domain separation of key derivation

/-- C6: for every passphrase and salt, derive_key is deterministic, and the
verification hash differs bit for bit from the derived key because the
verification PBKDF2 runs over the domain-separating salt transformation
(salt with the _verify suffix). -/
theorem derive_key_deterministic_domain_separated :
    (∀ (pw : String) (salt : Bytes), derive_key pw salt = derive_key pw salt) ∧
    (∀ (pw : String) (salt : Bytes),
      b64decode (hash_master_password pw salt) ≠ derive_key pw salt) := by
  refine ⟨fun _ _ => rfl, ?_⟩
  intro pw salt h
  simp only [hash_master_password, derive_key, b64decode, b64encode] at h
  injection h with h1 h2 h3 h4
  have hlen := congrArg List.length h3
  simp only [List.length_append, verifyTag, List.length_cons, List.length_nil] at hlen
  omega

-- ### Claim C9: KDF work factor, key size, nonce size and freshness

/-- C9: the PBKDF2 iteration count is fixed at the OWASP minimum 600000 or
above, the derived key is exactly 256 bits, and every encryption call draws
a fresh random 96-bit nonce from the entropy source (distinct draws are
distinct and the counter advances). -/
theorem kdf_and_nonce_parameters :
    600000 ≤ ITERATIONS ∧
    (∀ (pw : String) (salt : Bytes), (derive_key pw salt).dkLenBits = 256) ∧
    (∀ (pt : String) (key : KeyMaterial) (e : Nat),
      (encrypt_password pt key e).1.2 = b64encode (randBytes 12 e) ∧
      8 * (randBytes 12 e).length = 96 ∧
      (encrypt_password pt key e).2 = e + 1) ∧
    (∀ e1 e2 : Nat, e1 ≠ e2 → randBytes 12 e1 ≠ randBytes 12 e2) := by
  refine ⟨by norm_num [ITERATIONS], fun _ _ => rfl, ?_, ?_⟩
  · intro pt key e
    refine ⟨rfl, ?_, rfl⟩
    simp [randBytes]
  · intro e1 e2 h
    exact randBytes_injective_draw 12 e1 e2 (by norm_num) h

/-- Concrete instance of C9 with the nonce-freshness hypothesis
discharged: the nonces of two successive encryption calls differ. -/
theorem kdf_and_nonce_parameters_witness :
    600000 ≤ ITERATIONS ∧ randBytes 12 0 ≠ randBytes 12 1 :=
  ⟨kdf_and_nonce_parameters.1, kdf_and_nonce_parameters.2.2.2 0 1 (by decide)⟩

-- ### Concrete reachable states used by counterexamples and witnesses

/-- A salt drawn before the current entropy counter. -/
def aliceSalt : Bytes := randBytes 32 0

def aliceOldKey : KeyMaterial := derive_key "Sup3rSecret!" aliceSalt

def aliceUser : UserRec :=
  { id := 1, username := "alice",
    password_hash := hash_master_password "Sup3rSecret!" aliceSalt,
    salt := b64encode aliceSalt,
    recovery_code_hash := some (Sha256Hex.sha256 "RC9"),
    is_kids_account := false, parent_id := none }

/-- A vault entry that decrypts fine under the old key. -/
def aliceEntryOk : PasswordRec :=
  { id := 1, user_id := 1, title := "a", username := "", url := "",
    encrypted_password := b64encode (Ct.enc "hunter2" aliceOldKey (randBytes 12 1)),
    iv := b64encode (randBytes 12 1), notes := "", is_favorite := false }

/-- A vault entry whose ciphertext was produced under a different key, so
decryption under the old passphrase key fails. -/
def aliceEntryBad : PasswordRec :=
  { id := 2, user_id := 1, title := "b", username := "", url := "",
    encrypted_password :=
      b64encode (Ct.enc "secret" (KeyMaterial.raw (randBytes 32 2)) (randBytes 12 3)),
    iv := b64encode (randBytes 12 3), notes := "", is_favorite := false }

def aliceSess1 : SessionRec :=
  { token := 4, user_id := 1, username := "alice", encryption_key := b64encode aliceOldKey }

def aliceSess2 : SessionRec :=
  { token := 5, user_id := 1, username := "alice", encryption_key := b64encode aliceOldKey }

def aliceDB : DB :=
  { users := [aliceUser], passwords := [aliceEntryOk, aliceEntryBad],
    sessions := [aliceSess1, aliceSess2], groups := [], group_members := [],
    group_passwords := [], entropy := 6, next_id := 3 }

def kidSalt0 : Bytes := randBytes 32 10

def kidUser : UserRec :=
  { id := 2, username := "kid",
    password_hash := hash_master_password "kidpass1" kidSalt0,
    salt := b64encode kidSalt0, recovery_code_hash := none,
    is_kids_account := true, parent_id := some 1 }

def kidSess : SessionRec :=
  { token := 11, user_id := 2, username := "kid",
    encryption_key := b64encode (derive_key "kidpass1" kidSalt0) }

def kidDB : DB :=
  { users := [kidUser], passwords := [], sessions := [kidSess],
    groups := [], group_members := [], group_passwords := [],
    entropy := 12, next_id := 1 }

/-- A kids account whose login passphrase happens to be the literal kids
key derivation string (kids passwords only need 4 characters, so this is
an admissible input). -/
def magicKid : UserRec :=
  { id := 2, username := "kid",
    password_hash := hash_master_password "sekure_kids_2_1" kidSalt0,
    salt := b64encode kidSalt0, recovery_code_hash := none,
    is_kids_account := true, parent_id := some 1 }

-- ### Claim C1: passphrase-change atomicity (the code violates it)

/-- C1: evaluation of change_password at a state where one of the two vault
entries fails to decrypt under the old key.  Contrary to the claimed
atomicity, the operation succeeds, silently keeps the failing entry under
its old ciphertext, re-encrypts the other entry, and swaps the stored salt
of the credential record. -/
theorem change_password_skips_failing_entry :
    ∃ db2, change_password 4 "Sup3rSecret!" "N3wPass!!" aliceDB = .ok db2 ∧
      aliceEntryBad ∈ db2.passwords ∧
      (∃ p ∈ db2.passwords, p.id = 1 ∧ p.encrypted_password ≠ aliceEntryOk.encrypted_password) ∧
      (∃ u ∈ db2.users, u.id = 1 ∧ u.salt ≠ aliceUser.salt) := by
  refine ⟨_, rfl, ?_, ?_, ?_⟩ <;> decide

-- ### Claim C2: session fate on passphrase change (counterexample)

/-- C2 counterexample: after a successful change_password at a state with
two sessions for the principal, both pre-existing tokens still resolve and
the principal still has exactly its two old sessions — no token is
invalidated and no fresh session is created, contradicting the claim. -/
theorem change_password_leaves_old_tokens_valid :
    ∃ db2, change_password 4 "Sup3rSecret!" "N3wPass!!" aliceDB = .ok db2 ∧
      (load_session 4 db2).isSome = true ∧
      (load_session 5 db2).isSome = true ∧
      (db2.sessions.filter (fun s => s.user_id == 1)).length = 2 := by
  refine ⟨_, rfl, ?_, ?_, ?_⟩ <;> decide

-- ### Claim C3: child-domain key across passphrase change (counterexample)

/-- C3 counterexample: when the child itself runs the passphrase-change
protocol, its stored salt is regenerated, and since the child-domain key is
derived from that salt, the child-domain key changes. -/
theorem change_password_by_child_changes_child_key :
    ∃ db2, change_password 11 "kidpass1" "newpass123" kidDB = .ok db2 ∧
      ∃ k ∈ db2.users, k.id = 2 ∧
        get_kid_encryption_key k ≠ get_kid_encryption_key kidUser := by
  refine ⟨_, rfl, ?_⟩
  decide

-- ### Claim C10: login key vs kids-vault key (counterexample)

/-- C10 counterexample: for a kids account whose login passphrase is the
literal string sekure_kids_2_1, the login-derived key equals the
deterministic kids-vault key, so a kids-endpoint ciphertext decrypts fine
under the login key — the claimed unconditional key difference fails. -/
theorem kids_login_key_can_equal_kids_vault_key :
    derive_key "sekure_kids_2_1" (b64decode magicKid.salt) = get_kid_encryption_key magicKid ∧
    decrypt_password
      (b64encode (Ct.enc "hunter2" (get_kid_encryption_key magicKid) (randBytes 12 13)))
      (b64encode (randBytes 12 13))
      (derive_key "sekure_kids_2_1" (b64decode magicKid.salt)) = .ok "hunter2" := by
  exact ⟨by decide, by rfl⟩

/-- The state produced by a successful change_password, spelled out: user
record re-salted and re-hashed, vault re-encrypted by reencrypt_entries,
and every session of the user re-keyed in place. -/
def change_password_result (db : DB) (u : UserRec) (cur new : String) : DB :=
  { db with
    users := db.users.map (fun x => if x.id == u.id then
      { u with
        password_hash := hash_master_password new (randBytes 32 db.entropy),
        salt := b64encode (randBytes 32 db.entropy) } else x),
    passwords := (reencrypt_entries db.passwords u.id
      (derive_key cur (b64decode u.salt))
      (derive_key new (randBytes 32 db.entropy)) (db.entropy + 1)).1,
    sessions := db.sessions.map (fun s => if s.user_id == u.id then
      { s with encryption_key := b64encode (derive_key new (randBytes 32 db.entropy)) }
      else s),
    entropy := (reencrypt_entries db.passwords u.id
      (derive_key cur (b64decode u.salt))
      (derive_key new (randBytes 32 db.entropy)) (db.entropy + 1)).2 }

/-- A change_password call whose session lookup, user lookup and passphrase
verification succeed and whose new passphrase is long enough produces
exactly change_password_result. -/
theorem change_password_run
    (db : DB) (token : Token) (cur new : String) (srec : SessionRec) (u : UserRec)
    (hfind : db.sessions.find? (fun r => r.token == token) = some srec)
    (hu : db.users.find? (fun x => x.id == srec.user_id) = some u)
    (hv : verify_master_password cur (b64decode u.salt) u.password_hash = true)
    (hl : ¬ new.length < 8) :
    change_password token cur new db = .ok (change_password_result db u cur new) := by
  have hses : get_current_session token db = .ok
      { token := token, user_id := srec.user_id, username := srec.username,
        key := b64decode srec.encryption_key,
        is_kids_account := u.is_kids_account } := by
    simp only [get_current_session, load_session, hfind, hu]
  simp only [change_password, change_password_result, hses, hu, hv, hl, urandom,
    if_true, if_false, ite_true, ite_false, if_neg, not_false_iff]

/-- C2 (amended): after a successful change_password, no session is revoked
and no fresh session is created: every session of the principal is updated
in place with the new key (token unchanged), other sessions are untouched,
and the pre-existing token still resolves, now bound to the new key. -/
theorem change_password_rekeys_sessions_in_place
    (db : DB) (token : Token) (cur new : String) (srec : SessionRec) (u : UserRec)
    (hfind : db.sessions.find? (fun r => r.token == token) = some srec)
    (hu : db.users.find? (fun x => x.id == srec.user_id) = some u)
    (hv : verify_master_password cur (b64decode u.salt) u.password_hash = true)
    (hl : ¬ new.length < 8) :
    ∃ db2, change_password token cur new db = .ok db2 ∧
      db2.sessions = db.sessions.map (fun s =>
        if s.user_id == u.id then
          { s with encryption_key := b64encode (derive_key new (randBytes 32 db.entropy)) }
        else s) ∧
      ∃ sd, load_session token db2 = some sd ∧ sd.user_id = srec.user_id ∧
        sd.key = derive_key new (randBytes 32 db.entropy) := by
  have hid : u.id = srec.user_id := by simpa using List.find?_some hu
  have hrun := change_password_run db token cur new srec u hfind hu hv hl
  refine ⟨_, hrun, rfl, ?_⟩
  have hcomp : ((fun (s : SessionRec) => s.token == token) ∘ (fun s =>
      if s.user_id == u.id then
        { s with encryption_key := b64encode (derive_key new (randBytes 32 db.entropy)) }
      else s)) = fun s => s.token == token := by
    funext s
    by_cases h : s.user_id = u.id <;> simp [h]
  have hif : (srec.user_id == u.id) = true := by simp [hid]
  simp only [load_session, change_password_result, List.find?_map, hcomp, hfind,
    Option.map_some', hif, ite_true]
  exact ⟨_, rfl, rfl, rfl⟩

/-- Concrete instance of C2 (amended) with all hypotheses discharged. -/
theorem change_password_rekeys_sessions_in_place_witness :
    ∃ db2, change_password 4 "Sup3rSecret!" "N3wPass!!" aliceDB = .ok db2 ∧
      db2.sessions = aliceDB.sessions.map (fun s =>
        if s.user_id == aliceUser.id then
          { s with encryption_key :=
              b64encode (derive_key "N3wPass!!" (randBytes 32 aliceDB.entropy)) }
        else s) ∧
      ∃ sd, load_session 4 db2 = some sd ∧ sd.user_id = aliceSess1.user_id ∧
        sd.key = derive_key "N3wPass!!" (randBytes 32 aliceDB.entropy) :=
  change_password_rekeys_sessions_in_place aliceDB 4 "Sup3rSecret!" "N3wPass!!"
    aliceSess1 aliceUser (by decide) (by decide) (by decide) (by decide)

/-- Entries of other principals pass through the change_password
re-encryption loop untouched. -/
theorem reencrypt_entries_preserves_other_users (ps : List PasswordRec) (uid : Nat)
    (k1 k2 : KeyMaterial) (p : PasswordRec) (hne : p.user_id ≠ uid) :
    ∀ e, p ∈ ps → p ∈ (reencrypt_entries ps uid k1 k2 e).1 := by
  induction ps with
  | nil => intro e hp; cases hp
  | cons q rest ih =>
    intro e hp
    rcases List.mem_cons.mp hp with heq | hp2
    · subst heq
      have hq : (p.user_id == uid) = false := by simpa using hne
      simp only [reencrypt_entries, hq, Bool.false_eq_true, if_false, ite_false]
      exact List.mem_cons_self _ _
    · by_cases hq : (q.user_id == uid) = true
      · simp only [reencrypt_entries, hq, if_true, ite_true]
        cases hdec : decrypt_password q.encrypted_password q.iv k1 with
        | ok pt => exact List.mem_cons_of_mem _ (ih _ hp2)
        | error err => exact List.mem_cons_of_mem _ (ih _ hp2)
      · have hq2 : (q.user_id == uid) = false := by simpa using hq
        simp only [reencrypt_entries, hq2, Bool.false_eq_true, if_false, ite_false]
        exact List.mem_cons_of_mem _ (ih _ hp2)

/-- C3 (amended): a successful change_password leaves every other
principal's user record and vault entries untouched — in particular a
passphrase change by the parent leaves the child-domain key unchanged —
but when the principal changing the passphrase is itself a child, its salt
is regenerated, and with it the child-domain key changes. -/
theorem change_password_child_domain_effects
    (db : DB) (token : Token) (cur new : String) (srec : SessionRec) (u : UserRec)
    (hfind : db.sessions.find? (fun r => r.token == token) = some srec)
    (hu : db.users.find? (fun x => x.id == srec.user_id) = some u)
    (hv : verify_master_password cur (b64decode u.salt) u.password_hash = true)
    (hl : ¬ new.length < 8) :
    ∃ db2, change_password token cur new db = .ok db2 ∧
      (∀ kid ∈ db.users, kid.id ≠ u.id → kid ∈ db2.users) ∧
      (∀ p ∈ db.passwords, p.user_id ≠ u.id → p ∈ db2.passwords) ∧
      (bytesFresh (b64decode u.salt) db.entropy = true →
        ∃ u2 ∈ db2.users, u2.id = u.id ∧ u2.parent_id = u.parent_id ∧
          get_kid_encryption_key u2 ≠ get_kid_encryption_key u) := by
  have hrun := change_password_run db token cur new srec u hfind hu hv hl
  refine ⟨_, hrun, ?_, ?_, ?_⟩
  · intro kid hkid hne
    simp only [change_password_result]
    have hif : (kid.id == u.id) = false := by simpa using hne
    exact List.mem_map.mpr ⟨kid, hkid, by simp [hif]⟩
  · intro p hp hne
    simp only [change_password_result]
    exact reencrypt_entries_preserves_other_users db.passwords u.id _ _ p hne _ hp
  · intro hfresh
    refine ⟨{ u with
      password_hash := hash_master_password new (randBytes 32 db.entropy),
      salt := b64encode (randBytes 32 db.entropy) }, ?_, rfl, rfl, ?_⟩
    · simp only [change_password_result]
      exact List.mem_map.mpr ⟨u, List.mem_of_find?_eq_some hu, by simp⟩
    · intro h
      simp only [get_kid_encryption_key, derive_key, kids_key_input] at h
      injection h with h1 h2 h3 h4
      exact bytesFresh_ne_randBytes _ _ 32 hfresh (by norm_num) h3.symm

/-- Concrete instance of C3 (amended): the child changing its own
passphrase does change the child-domain key. -/
theorem change_password_child_domain_effects_witness :
    ∃ db2, change_password 11 "kidpass1" "newpass123" kidDB = .ok db2 ∧
      ∃ u2 ∈ db2.users, u2.id = kidUser.id ∧ u2.parent_id = kidUser.parent_id ∧
        get_kid_encryption_key u2 ≠ get_kid_encryption_key kidUser := by
  obtain ⟨db2, h1, _, _, h4⟩ := change_password_child_domain_effects kidDB 11
    "kidpass1" "newpass123" kidSess kidUser (by decide) (by decide) (by decide) (by decide)
  exact ⟨db2, h1, h4 (by decide)⟩

-- ### Claim C4: recovery is destructive and reissues credentials

/-- The state produced by a successful recover_account, spelled out. -/
def recover_result (db : DB) (u : UserRec) (newpw : String) : DB :=
  { db with
    users := db.users.map (fun x => if x.id == u.id then
      { u with
        password_hash := hash_master_password newpw (randBytes 32 db.entropy),
        salt := b64encode (randBytes 32 db.entropy),
        recovery_code_hash := some (Sha256Hex.sha256 ("RC" ++ toString (db.entropy + 1))) }
      else x),
    passwords := db.passwords.filter (fun p => p.user_id != u.id),
    sessions := (db.sessions.filter (fun s => s.user_id != u.id)) ++
      [{ token := db.entropy + 2, user_id := u.id, username := u.username,
         encryption_key := b64encode (derive_key newpw (randBytes 32 db.entropy)) }],
    entropy := db.entropy + 3 }

/-- A recover_account call whose user lookup and recovery-code check
succeed and whose new passphrase is long enough produces exactly
recover_result, returning the fresh token and the fresh plaintext
recovery code. -/
theorem recover_account_run
    (db : DB) (username code newpw : String) (u : UserRec) (stored : Sha256Hex)
    (hlen : ¬ newpw.length < 8)
    (hfind : db.users.find? (fun x => x.username == pyStrip username) = some u)
    (hrc : u.recovery_code_hash = some stored)
    (hmatch : Sha256Hex.sha256 (normalize_recovery_code code) = stored) :
    recover_account username code newpw db = .ok
      ({ token := db.entropy + 2, recovery_code := "RC" ++ toString (db.entropy + 1) },
       recover_result db u newpw) := by
  simp only [recover_account, recover_result, hlen, hfind, hrc, hmatch, urandom,
    fresh_recovery_code, eq_self_iff_true, if_true, if_false, ite_true, ite_false,
    if_neg, not_false_iff]

/-- C4: after a successful recover, every pre-recovery vault entry of the
principal is deleted, every pre-existing session of the principal no longer
resolves, exactly one fresh session bound to the new key exists, and the
plaintext recovery code returned to the caller is stored only as its hash
(the schema has no field holding the plaintext). -/
theorem recover_account_destroys_vault_and_reissues
    (db : DB) (username code newpw : String) (u : UserRec) (stored : Sha256Hex)
    (hlen : ¬ newpw.length < 8)
    (hfind : db.users.find? (fun x => x.username == pyStrip username) = some u)
    (hrc : u.recovery_code_hash = some stored)
    (hmatch : Sha256Hex.sha256 (normalize_recovery_code code) = stored)
    (hwf : db.sessionsWF) :
    ∃ out db2, recover_account username code newpw db = .ok (out, db2) ∧
      (∀ p ∈ db2.passwords, p.user_id ≠ u.id) ∧
      (∀ s ∈ db.sessions, s.user_id = u.id → load_session s.token db2 = none) ∧
      db2.sessions.filter (fun s => s.user_id == u.id) =
        [{ token := out.token, user_id := u.id, username := u.username,
           encryption_key := b64encode (derive_key newpw (randBytes 32 db.entropy)) }] ∧
      (∃ u2 ∈ db2.users, u2.id = u.id ∧
        u2.recovery_code_hash = some (Sha256Hex.sha256 out.recovery_code)) := by
  have hrun := recover_account_run db username code newpw u stored hlen hfind hrc hmatch
  refine ⟨_, _, hrun, ?_, ?_, ?_, ?_⟩
  · intro p hp
    simp only [recover_result, List.mem_filter] at hp
    simpa using hp.2
  · intro s hs hsu
    have hnone : List.find? (fun (r : SessionRec) => r.token == s.token)
        ((db.sessions.filter (fun r => r.user_id != u.id)) ++
         [{ token := db.entropy + 2, user_id := u.id, username := u.username,
            encryption_key := b64encode (derive_key newpw (randBytes 32 db.entropy)) }]) = none := by
      rw [List.find?_eq_none]
      intro x hx
      rcases List.mem_append.mp hx with hx1 | hx2
      · obtain ⟨hxs, hxne⟩ := List.mem_filter.mp hx1
        intro hxt
        have hx_eq : x = s := List.inj_on_of_nodup_map hwf.2 hxs hs (by simpa using hxt)
        subst hx_eq
        exact (by simpa using hxne : x.user_id ≠ u.id) hsu
      · have hx_eq := List.mem_singleton.mp hx2
        subst hx_eq
        intro hxt
        have hlt : s.token < db.entropy := hwf.1 s hs
        have hteq : db.entropy + 2 = s.token := by simpa using hxt
        rw [← hteq] at hlt
        exact absurd hlt (Nat.not_lt.mpr (Nat.le_add_right _ _))
    simp only [load_session, recover_result, hnone]
  · simp only [recover_result, List.filter_append]
    rw [List.filter_eq_nil_iff.mpr, List.nil_append]
    · simp
    · intro a ha
      obtain ⟨-, hane⟩ := List.mem_filter.mp ha
      simpa using (by simpa using hane : a.user_id ≠ u.id)
  · refine ⟨{ u with
      password_hash := hash_master_password newpw (randBytes 32 db.entropy),
      salt := b64encode (randBytes 32 db.entropy),
      recovery_code_hash := some (Sha256Hex.sha256 ("RC" ++ toString (db.entropy + 1))) },
      ?_, rfl, rfl⟩
    simp only [recover_result]
    exact List.mem_map.mpr ⟨u, List.mem_of_find?_eq_some hfind, by simp⟩

/-- Concrete instance of C4 with all hypotheses discharged. -/
theorem recover_account_destroys_vault_and_reissues_witness :
    ∃ out db2, recover_account "alice" "rc9" "Reset123!" aliceDB = .ok (out, db2) ∧
      (∀ p ∈ db2.passwords, p.user_id ≠ aliceUser.id) ∧
      (∀ s ∈ aliceDB.sessions, s.user_id = aliceUser.id → load_session s.token db2 = none) ∧
      db2.sessions.filter (fun s => s.user_id == aliceUser.id) =
        [{ token := out.token, user_id := aliceUser.id, username := aliceUser.username,
           encryption_key := b64encode (derive_key "Reset123!" (randBytes 32 aliceDB.entropy)) }] ∧
      (∃ u2 ∈ db2.users, u2.id = aliceUser.id ∧
        u2.recovery_code_hash = some (Sha256Hex.sha256 out.recovery_code)) :=
  recover_account_destroys_vault_and_reissues aliceDB "alice" "rc9" "Reset123!"
    aliceUser (Sha256Hex.sha256 "RC9") (by decide) (by decide) (by decide)
    (by decide) (by decide)

-- ### Claim C7: caller-independence of the kids key

/-- A successful get_kid_for_parent always returns the account record found
by id, whoever the caller was. -/
theorem get_kid_for_parent_ok (kid_id uid : Nat) (db : DB) (kid : UserRec)
    (h : get_kid_for_parent kid_id uid db = .ok kid) :
    db.users.find? (fun u => u.id == kid_id) = some kid := by
  unfold get_kid_for_parent at h
  cases hfind : db.users.find? (fun u => u.id == kid_id) with
  | none => rw [hfind] at h; simp at h
  | some k =>
    rw [hfind] at h
    by_cases hc : (k.parent_id == some uid || k.id == uid) = true
    · simp only [hc, if_true, ite_true] at h
      injection h with h2
      rw [h2]
    · simp only [hc, if_false, ite_false] at h
      cases h

/-- C7: the kids-vault key resolution is caller-independent: any two
authorized callers (the parent or the child itself) obtain the same account
record and hence identical KeyMaterial, and the key is a function of
nothing but the child id, the parent reference and the stored salt — no
additional stored secret enters the derivation. -/
theorem child_key_caller_independent
    (db : DB) (kid_id uidA uidB : Nat) (kidA kidB : UserRec)
    (hA : get_kid_for_parent kid_id uidA db = .ok kidA)
    (hB : get_kid_for_parent kid_id uidB db = .ok kidB) :
    kidA = kidB ∧
    get_kid_encryption_key kidA = get_kid_encryption_key kidB ∧
    (∀ k1 k2 : UserRec, k1.id = k2.id → k1.parent_id = k2.parent_id →
      k1.salt = k2.salt → get_kid_encryption_key k1 = get_kid_encryption_key k2) := by
  have hmain : kidA = kidB := by
    have h1 := get_kid_for_parent_ok kid_id uidA db kidA hA
    have h2 := get_kid_for_parent_ok kid_id uidB db kidB hB
    rw [h1] at h2
    exact Option.some.inj h2
  refine ⟨hmain, by rw [hmain], ?_⟩
  intro k1 k2 h1 h2 h3
  simp only [get_kid_encryption_key, kids_key_input, h1, h2, h3]

/-- Concrete instance of C7: the parent (caller 1) and the child itself
(caller 2) resolve the same child account and key. -/
theorem child_key_caller_independent_witness :
    kidUser = kidUser ∧
    get_kid_encryption_key kidUser = get_kid_encryption_key kidUser ∧
    (∀ k1 k2 : UserRec, k1.id = k2.id → k1.parent_id = k2.parent_id →
      k1.salt = k2.salt → get_kid_encryption_key k1 = get_kid_encryption_key k2) :=
  child_key_caller_independent kidDB 2 1 2 kidUser kidUser (by rfl) (by rfl)

-- ### Claim C8: group access control and key origin

/-- C8: an authenticated caller who is not a current member of a group gets
Forbidden from both the group-vault read and write endpoints, even knowing
the group id; and create_group stores a fresh random 32-byte key (the
urandom draw at the current entropy counter), base64-encoded in the group
record, which is never a passphrase-derived PBKDF2 value. -/
theorem group_access_control_and_key_origin
    (db : DB) (gid eid : Nat) (token : Token) (sd : SessionData)
    (hs : get_current_session token db = .ok sd)
    (hnm : db.group_members.find?
      (fun m => m.group_id == gid && m.user_id == sd.user_id) = none) :
    get_group_vault_entry gid eid token db =
      .error (.http 403 "No eres miembro de este grupo.") ∧
    (∀ data : GroupPasswordCreateData,
      create_group_vault_entry gid data token db =
        .error (.http 403 "No eres miembro de este grupo.")) ∧
    (∀ name gid2 db2, create_group name token db = .ok (gid2, db2) →
      ∃ g ∈ db2.groups, g.id = gid2 ∧
        g.encryption_key = b64encode (KeyMaterial.raw (randBytes 32 db.entropy)) ∧
        ∀ (pw : String) (salt : Bytes),
          b64decode g.encryption_key ≠ derive_key pw salt) := by
  refine ⟨?_, ?_, ?_⟩
  · simp only [get_group_vault_entry, hs, hnm]
  · intro data
    simp only [create_group_vault_entry, hs, hnm]
  · intro name gid2 db2 hok
    simp only [create_group, hs, urandom] at hok
    by_cases hname : pyStrip name = ""
    · rw [if_pos hname] at hok
      cases hok
    · rw [if_neg hname] at hok
      injection hok with h1
      have hgid : db.next_id = gid2 := congrArg Prod.fst h1
      have hdb : db2 = _ := (congrArg Prod.snd h1).symm
      refine ⟨{ id := db.next_id, name := pyStrip name, owner_id := sd.user_id,
                encryption_key := b64encode (KeyMaterial.raw (randBytes 32 db.entropy)) },
              ?_, hgid, rfl, ?_⟩
      · rw [hdb]
        exact List.mem_append_right _ (List.mem_singleton.mpr rfl)
      · intro pw salt h
        exact KeyMaterial.noConfusion h

/-- Concrete instance of C8 for a caller with a valid session who belongs
to no group. -/
theorem group_access_control_and_key_origin_witness :
    get_group_vault_entry 1 1 4 aliceDB =
      .error (.http 403 "No eres miembro de este grupo.") ∧
    create_group_vault_entry 1 ⟨"t", "u", "", "", "p"⟩ 4 aliceDB =
      .error (.http 403 "No eres miembro de este grupo.") := by
  obtain ⟨h1, h2, -⟩ := group_access_control_and_key_origin aliceDB 1 1 4
    ⟨4, 1, "alice", aliceOldKey, false⟩ (by rfl) (by rfl)
  exact ⟨h1, h2 ⟨"t", "u", "", "", "p"⟩⟩

-- ### Claim C10 (amended): kids key vs login key

/-- C10 (amended): for a kids principal whose login passphrase is not the
literal derivation string sekure_kids_id_parent, the login-session key
differs from the deterministic kids-vault key; consequently an entry
encrypted by the kids endpoints fails to decrypt through the personal-vault
endpoint under the login session, and an entry encrypted under the login
key fails to decrypt through the kids endpoint.  (When the passphrase
equals that string the keys coincide, see the counterexample.) -/
theorem kids_key_differs_from_login_key
    (kid : UserRec) (pw : String)
    (hpw : pw ≠ kids_key_input kid) :
    derive_key pw (b64decode kid.salt) ≠ get_kid_encryption_key kid ∧
    (∀ (db : DB) (tok : Token) (srec : SessionRec) (eid : Nat) (entry : PasswordRec)
       (pt : String) (iv : Bytes),
      db.sessions.find? (fun r => r.token == tok) = some srec →
      srec.encryption_key = b64encode (derive_key pw (b64decode kid.salt)) →
      db.passwords.find? (fun p => p.id == eid && p.user_id == srec.user_id) = some entry →
      entry.encrypted_password = b64encode (Ct.enc pt (get_kid_encryption_key kid) iv) →
      get_vault_entry eid tok db = .error .authenticationFailure) ∧
    (∀ (db : DB) (tok : Token) (srec : SessionRec) (eid : Nat) (entry : PasswordRec)
       (pt : String) (iv : Bytes),
      db.sessions.find? (fun r => r.token == tok) = some srec →
      srec.user_id = kid.id →
      db.users.find? (fun x => x.id == kid.id) = some kid →
      db.passwords.find? (fun p => p.id == eid && p.user_id == kid.id) = some entry →
      entry.encrypted_password = b64encode (Ct.enc pt (derive_key pw (b64decode kid.salt)) iv) →
      get_kids_vault_entry kid.id eid tok db = .error .authenticationFailure) := by
  have hkeys : derive_key pw (b64decode kid.salt) ≠ get_kid_encryption_key kid := by
    intro h
    simp only [derive_key, get_kid_encryption_key] at h
    injection h with h1 h2 h3 h4
    exact hpw h2
  refine ⟨hkeys, ?_, ?_⟩
  · intro db tok srec eid entry pt iv hfind hkey hentry hct
    simp only [get_vault_entry, get_current_session, load_session, hfind, hentry, hct,
      hkey, decrypt_password, aesgcm_decrypt, b64decode_encode]
    rw [if_neg]
    rintro ⟨hk, -⟩
    exact hkeys hk.symm
  · intro db tok srec eid entry pt iv hfind hsu hu hentry hct
    have hauth : (kid.parent_id == some srec.user_id || kid.id == srec.user_id) = true := by
      rw [hsu]
      simp
    simp only [get_kids_vault_entry, get_current_session, load_session, hfind,
      get_kid_for_parent, hu, hauth, if_true, ite_true, hentry, hct,
      decrypt_password, aesgcm_decrypt, b64decode_encode]
    rw [if_neg]
    rintro ⟨hk, -⟩
    exact hkeys hk

/-- Concrete two-entry state for the C10 witness: one entry encrypted under
the kids key, one under the login key, a login session for the child. -/
def kidVaultEntry : PasswordRec :=
  { id := 1, user_id := 2, title := "k", username := "", url := "",
    encrypted_password :=
      b64encode (Ct.enc "kidsecret" (get_kid_encryption_key kidUser) (randBytes 12 5)),
    iv := b64encode (randBytes 12 5), notes := "", is_favorite := false }

def loginVaultEntry : PasswordRec :=
  { id := 2, user_id := 2, title := "l", username := "", url := "",
    encrypted_password :=
      b64encode (Ct.enc "other" (derive_key "kidpass1" kidSalt0) (randBytes 12 6)),
    iv := b64encode (randBytes 12 6), notes := "", is_favorite := false }

def kidDB10 : DB :=
  { users := [kidUser], passwords := [kidVaultEntry, loginVaultEntry],
    sessions := [kidSess], groups := [], group_members := [],
    group_passwords := [], entropy := 12, next_id := 3 }

/-- Concrete instance of C10 (amended) with all hypotheses discharged. -/
theorem kids_key_differs_from_login_key_witness :
    derive_key "kidpass1" (b64decode kidUser.salt) ≠ get_kid_encryption_key kidUser ∧
    get_vault_entry 1 11 kidDB10 = .error .authenticationFailure ∧
    get_kids_vault_entry 2 2 11 kidDB10 = .error .authenticationFailure := by
  obtain ⟨h1, h2, h3⟩ := kids_key_differs_from_login_key kidUser "kidpass1" (by decide)
  exact ⟨h1,
    h2 kidDB10 11 kidSess 1 kidVaultEntry "kidsecret" (randBytes 12 5)
      (by decide) (by decide) (by decide) (by decide),
    h3 kidDB10 11 kidSess 2 loginVaultEntry "other" (randBytes 12 6)
      (by decide) (by decide) (by decide) (by decide) (by decide)⟩

end Sekure
